import Mathlib

/-!
Shallow embedding of the CSS selector builder from `src/06-objects-tasks.js`
(the `Selector` factory and the `cssSelectorBuilder` facade, lines 120-240).

Modelling conventions:
* JavaScript objects mutated in place become explicit state passing; a thrown
  `Error` becomes a `some SelError` component of the result (the state
  component still records every field assignment performed before the throw,
  exactly as the JS objects would).
* The facade holds references to `Selector` objects (`this.selectors.push(n)`
  stores a reference, and chained calls mutate the very object in the list).
  References are modelled by a store (allocation-ordered list of `Selector`
  values) with `Nat` indices as handles.
* `this.unicCall[fName] += 1` on a key absent from `{ id: 0, pseudoElement: 0,
  element: 0 }` computes `undefined + 1 = NaN`; `NaN > 1` is `false`, so the
  duplicate check can never fire for `class`/`attr`/`pseudoClass`.  The NaN
  valued properties are recorded as `Bool` flags (present/absent); no code
  path ever reads them back.
-/

/-- The six fragment method names routed through `callMeth`
(`element`, `id`, `class`, `attr`, `pseudoClass`, `pseudoElement`). -/
inductive Kind
  | element
  | id
  | «class»
  | attr
  | pseudoClass
  | pseudoElement
deriving DecidableEq, Repr

/-- The two `throw new Error(...)` sites of the source, distinguished by their
message: `duplicate` is the message thrown by `checkCall` (line 130, about
element/id/pseudo-element occurring more than once), and `orderViolation` the
message thrown by `checkOrder` (line 138, about the required arrangement
order). -/
inductive SelError
  | duplicate
  | orderViolation
deriving DecidableEq, Repr

/-- The `unicCall` object, initialised as `{ id: 0, pseudoElement: 0, element: 0 }`
(line 124).  The three declared keys hold numbers; the other three fragment
names are absent until `checkCall` creates them with value `NaN`
(`undefined + 1`), recorded here as a `Bool` presence flag. -/
structure UnicCall where
  id : Nat
  pseudoElement : Nat
  element : Nat
  classNaN : Bool
  attrNaN : Bool
  pseudoClassNaN : Bool
deriving DecidableEq, Repr

/-- `this.unicCall[fName] += 1` (line 128): increments a declared counter, or
sets an undeclared key to `NaN` (`undefined + 1`). -/
def UnicCall.incr (u : UnicCall) : Kind → UnicCall
  | .id => { u with id := u.id + 1 }
  | .pseudoElement => { u with pseudoElement := u.pseudoElement + 1 }
  | .element => { u with element := u.element + 1 }
  | .«class» => { u with classNaN := true }
  | .attr => { u with attrNaN := true }
  | .pseudoClass => { u with pseudoClassNaN := true }

/-- `this.unicCall[fName] > 1` (line 129).  For the three undeclared keys the
stored value is `NaN` and `NaN > 1` is `false`. -/
def UnicCall.overOne (u : UnicCall) : Kind → Bool
  | .id => u.id > 1
  | .pseudoElement => u.pseudoElement > 1
  | .element => u.element > 1
  | .«class» => false
  | .attr => false
  | .pseudoClass => false

/-- Reading the numeric occurrence counter of a kind: the value of the
declared `unicCall` key for `id`, `pseudoElement` and `element`, and `0` for
the kinds whose key is never a number (their stored value, when present, is
`NaN` and never compares greater than 1). -/
def UnicCall.counterOf (u : UnicCall) : Kind → Nat
  | .id => u.id
  | .pseudoElement => u.pseudoElement
  | .element => u.element
  | _ => 0

/-- One selector object as returned by the `Selector()` factory (lines
120-185): `str` starting as the empty string, `last` starting as `null`, and
the `unicCall` counters.  (`orderRule` is the same constant list on every
instance and is modelled as the global `orderRule`.) -/
structure Selector where
  str : String
  last : Option Kind
  unicCall : UnicCall
deriving DecidableEq, Repr

/-- The fresh object built by `Selector()` (lines 121-124). -/
def Selector.new : Selector :=
  { str := "", last := none, unicCall := ⟨0, 0, 0, false, false, false⟩ }

/-- The `orderRule` array (line 125), listing the kinds in canonical order:
element, id, class, attr, pseudoClass, pseudoElement. -/
def orderRule : List Kind :=
  [.element, .id, .«class», .attr, .pseudoClass, .pseudoElement]

/-- `this.orderRule.indexOf(x)` where `x` is `this.last` (possibly `null`) or
a method name: `indexOf` returns `-1` when the argument is absent from the
array, which is exactly the `null` case. -/
def indexOfRule : Option Kind → Int
  | none => -1
  | some k => (orderRule.indexOf k : Nat)

/-- `checkCall(fName)` (lines 127-132): increments `unicCall[fName]` first,
then throws iff the updated value exceeds 1.  The increment survives the
throw. -/
def Selector.checkCall (s : Selector) (fName : Kind) : Selector × Option SelError :=
  let s' := { s with unicCall := s.unicCall.incr fName }
  if s'.unicCall.overOne fName then (s', some .duplicate) else (s', none)

/-- `checkOrder(fName)` (lines 134-140): computes
`orderRule.indexOf(this.last) <= orderRule.indexOf(fName)`, assigns
`this.last = fName`, and only then throws when unordered.  The assignment
survives the throw. -/
def Selector.checkOrder (s : Selector) (fName : Kind) : Selector × Option SelError :=
  let isOrdered := indexOfRule s.last ≤ indexOfRule (some fName)
  let s' := { s with last := some fName }
  if ¬ isOrdered then (s', some .orderViolation) else (s', none)

/-- `callMeth(v, fName, addBefore, addAfter)` (lines 142-149): runs
`checkCall`, then `checkOrder`, then appends `addBefore + v + addAfter` to
`this.str` (the `addBefore || ''` and `addAfter || ''` expressions default
missing arguments to the empty string). -/
def Selector.callMeth (s : Selector) (v : String) (fName : Kind)
    (addBefore addAfter : String) : Selector × Option SelError :=
  match s.checkCall fName with
  | (s1, some e) => (s1, some e)
  | (s1, none) =>
    match s1.checkOrder fName with
    | (s2, some e) => (s2, some e)
    | (s2, none) => ({ s2 with str := s2.str ++ addBefore ++ v ++ addAfter }, none)

/-- `element(v)` (line 152): `callMeth` with no prefix and no suffix. -/
def Selector.element (s : Selector) (v : String) : Selector × Option SelError :=
  s.callMeth v .element "" ""

/-- `id(v)` (line 156): `callMeth` with the hash prefix. -/
def Selector.id (s : Selector) (v : String) : Selector × Option SelError :=
  s.callMeth v .id "#" ""

/-- `class(v)` (line 160): `callMeth` with the dot prefix. -/
def Selector.«class» (s : Selector) (v : String) : Selector × Option SelError :=
  s.callMeth v .«class» "." ""

/-- `attr(v)` (line 164): `callMeth` with bracket prefix and suffix. -/
def Selector.attr (s : Selector) (v : String) : Selector × Option SelError :=
  s.callMeth v .attr "[" "]"

/-- `pseudoClass(v)` (line 168): `callMeth` with the colon prefix. -/
def Selector.pseudoClass (s : Selector) (v : String) : Selector × Option SelError :=
  s.callMeth v .pseudoClass ":" ""

/-- `pseudoElement(v)` (line 172): `callMeth` with the double-colon prefix. -/
def Selector.pseudoElement (s : Selector) (v : String) : Selector × Option SelError :=
  s.callMeth v .pseudoElement "::" ""

/-- The dynamic dispatch `n[f](v)` used by `setNewSelector` and by chained
calls: routes a method name to the corresponding fragment method. -/
def Selector.call (s : Selector) (fName : Kind) (v : String) : Selector × Option SelError :=
  match fName with
  | .element => s.element v
  | .id => s.id v
  | .«class» => s.«class» v
  | .attr => s.attr v
  | .pseudoClass => s.pseudoClass v
  | .pseudoElement => s.pseudoElement v

/-- The `addBefore` argument passed by each fragment method (nothing for
`element`, hash for `id`, dot for `class`, opening bracket for `attr`, colon
for `pseudoClass`, double colon for `pseudoElement`). -/
def addBeforeOf : Kind → String
  | .element => ""
  | .id => "#"
  | .«class» => "."
  | .attr => "["
  | .pseudoClass => ":"
  | .pseudoElement => "::"

/-- The `addAfter` argument passed by each fragment method (closing bracket
for `attr` only). -/
def addAfterOf : Kind → String
  | .attr => "]"
  | _ => ""

/-- Kinds whose counter is declared in `unicCall` and can therefore trigger
the duplicate throw: `element`, `id`, `pseudoElement`. -/
def singletonKind : Kind → Bool
  | .element => true
  | .id => true
  | .pseudoElement => true
  | _ => false

/-- Running a list of chained fragment calls on a selector object; `none`
when some call throws (the chain stops at the first exception). -/
def Selector.appendAll (s : Selector) : List (Kind × String) → Option Selector
  | [] => some s
  | (k, v) :: rest =>
    match s.call k v with
    | (s', none) => s'.appendAll rest
    | (_, some _) => none

/-!
The `cssSelectorBuilder` facade (lines 188-240).  Its mutable fields are the
`selectors` list (references to `Selector` objects, in push order) and the
`splitters` list.  References are indices into an allocation-ordered store.
-/

/-- A value returned by a facade method: either the facade itself (`this`, as
`combine` returns) or a reference to a `Selector` object. -/
inductive JsRef
  | facade
  | sel (i : Nat)
deriving DecidableEq, Repr

/-- State of `cssSelectorBuilder` together with the heap of `Selector`
objects it references.  `store` lists every allocated `Selector` in
allocation order; `selectors` and `splitters` are the two list fields of the
facade, with `selectors` holding store indices (JS object references). -/
structure Builder where
  store : List Selector
  selectors : List Nat
  splitters : List String
deriving DecidableEq, Repr

/-- The initial facade state: both lists empty (lines 189-190), no `Selector`
allocated yet. -/
def Builder.init : Builder := ⟨[], [], []⟩

/-- `setNewSelector(v, f)` (lines 192-198): allocates `new Selector()`, calls
`n[f](v)` on it, pushes the reference onto `this.selectors`, sets
`n.prototype = this` and returns the reference.  The first fragment call on a
fresh selector never throws (the counter goes from 0 to 1 and
`indexOf(null) = -1` is below every kind index), so the push always runs; the
prototype link every allocated selector carries back to the single facade is
implicit in the state representation. -/
def Builder.setNewSelector (b : Builder) (v : String) (f : Kind) : Builder × Nat :=
  let n := Selector.new
  let n1 := (n.call f v).1
  let r := b.store.length
  (⟨b.store ++ [n1], b.selectors ++ [r], b.splitters⟩, r)

/-- A chained fragment call on the selector object behind reference `i`:
mutates that very object in place (it stays in the facade list) and keeps the
same reference; a thrown error is the `Option` component. -/
def Builder.callAt (b : Builder) (i : Nat) (f : Kind) (v : String) :
    Builder × Option SelError :=
  match b.store[i]? with
  | none => (b, none)
  | some s =>
    let (s', e) := s.call f v
    ({ b with store := b.store.set i s' }, e)

/-- A whole chain of fragment calls on the selector object behind reference
`i`, stopping at the first thrown error, as in
`builder.id(x).class(y).class(z)`. -/
def Builder.chain (b : Builder) (i : Nat) : List (Kind × String) → Builder × Option SelError
  | [] => (b, none)
  | (k, v) :: rest =>
    match b.callAt i k v with
    | (b', none) => Builder.chain b' i rest
    | (b', some e) => (b', some e)

/-- `Selector.stringify()` (lines 176-182) invoked on the object behind
reference `i`: saves `this.str`, resets `this.str` to the empty string and
`this.last` to `null`, assigns `this.prototype.selectors = []` (clearing the
facade list of selectors — `prototype` is the facade, set by
`setNewSelector`), and returns the saved string.  `unicCall` and the facade
`splitters` list are not touched. -/
def Builder.selStringifyAt (b : Builder) (i : Nat) : String × Builder :=
  match b.store[i]? with
  | none => ("", b)
  | some s =>
    (s.str,
      { b with
        store := b.store.set i { s with str := "", last := none }
        selectors := [] })

/-- `combine(a, b)` (lines 224-227): declared with two parameters, so a third
argument in a call `combine(left, op, right)` binds `a = left`, `b = op` and
discards `right`.  The body uses only `b`: `this.splitters.unshift(b)`, and
returns `this` (the facade).  Operands have arbitrary types (`α`, `β`)
because JS accepts any values there and the body never touches them. -/
def Builder.combine {α β : Type} (bld : Builder) (a : α) (b : String) (c : β) :
    Builder × JsRef :=
  ({ bld with splitters := b :: bld.splitters }, .facade)

/-- The body of the arrow function at lines 230-234, run over the original
`selectors` array (the `map` iterates the array captured at call time, so the
`this.prototype.selectors = []` assignments inside each `sel.stringify()` do
not disturb the iteration): for position `i`, `r = sel.stringify()` (which
also resets `str` and `last` of that object in the store) and then
`r += ' ' + splitters[i] + ' '` when `splitters[i]` is truthy (a non-empty
string; out-of-range access yields `undefined`, which is falsy). -/
def Builder.mapParts (splitters : List String) :
    List Nat → Nat → List Selector → List String × List Selector
  | [], _, store => ([], store)
  | r :: rest, i, store =>
    match store[r]? with
    | none => ([], store)
    | some sel =>
      let part := sel.str ++
        (match splitters[i]? with
         | some sp => if sp = "" then "" else " " ++ sp ++ " "
         | none => "")
      let store' := store.set r { sel with str := "", last := none }
      let (parts, store'') := Builder.mapParts splitters rest (i + 1) store'
      (part :: parts, store'')

/-- `cssSelectorBuilder.stringify()` (lines 229-239): maps each stored
selector to its fragment string plus combinator text, then
`.reduce((a, b) => a + b)` — which, on the empty array, throws
`TypeError: Reduce of empty array with no initial value`, modelled as `none`
(in that case neither the map body nor the clearing assignments below the
reduce ever run, so the state is returned unchanged).  On a non-empty list
the parts are concatenated left to right and both facade lists are
cleared. -/
def Builder.stringify (b : Builder) : Option String × Builder :=
  if b.selectors.isEmpty then (none, b)
  else
    let (parts, store') := Builder.mapParts b.splitters b.selectors 0 b.store
    (some (String.join parts), { store := store', selectors := [], splitters := [] })

/-!
Specification-side vocabulary used by the claims: the rendering of a fragment
list, the canonical-order and cardinality validity of a fragment-kind
sequence, and concrete scenario states.
-/

/-- Concatenation, in append order and with no separators, of prefix, text
and suffix of each fragment. -/
def renderFrags : List (Kind × String) → String
  | [] => ""
  | (k, v) :: rest => addBeforeOf k ++ v ++ addAfterOf k ++ renderFrags rest

/-- A kind sequence is ordered when every adjacent pair is non-decreasing in
canonical-order index. -/
def ordered : List Kind → Bool
  | [] => true
  | [_] => true
  | a :: b :: rest =>
    (indexOfRule (some a) ≤ indexOfRule (some b)) && ordered (b :: rest)

/-- A fragment sequence is valid when its kinds are canonically ordered and
each singleton kind (element, id, pseudoElement) occurs at most once. -/
def validSeq (frags : List (Kind × String)) : Bool :=
  ordered (frags.map Prod.fst) &&
    ((frags.map Prod.fst).count .element ≤ 1) &&
    ((frags.map Prod.fst).count .id ≤ 1) &&
    ((frags.map Prod.fst).count .pseudoElement ≤ 1)

/-- The compound selector object obtained by building `id("main")` from a
fresh selector: the accumulated string is `#main`, the last-appended kind is
`id`, and the `id` counter is 1. -/
def mainIdSel : Selector :=
  { str := "#main", last := some Kind.id, unicCall := ⟨1, 0, 0, false, false, false⟩ }

/-- The state of `mainIdSel` after the failed append `element("div")`: the
string is untouched but `last` has been set to `element` and the `element`
counter has been incremented, both before the throw. -/
def mainIdSelAfterFail : Selector :=
  { str := "#main", last := some Kind.element, unicCall := ⟨1, 0, 1, false, false, false⟩ }

/-- Scenario shared by several claims: `cssSelectorBuilder.id("main")` on a
fresh facade.  The result is the facade state and the reference to the new
selector object. -/
def c2Base : Builder × Nat := Builder.init.setNewSelector "main" Kind.id

/-- First `stringify()` on the compound built by `c2Base`. -/
def c2First : String × Builder := c2Base.1.selStringifyAt c2Base.2

/-- Second `stringify()` on the very same compound. -/
def c2Second : String × Builder := c2First.2.selStringifyAt c2Base.2

/-- Failed chained append for the order-violation scenario:
`id("main")` built via the facade, then `element("div")` on it. -/
def c3Failed : Builder × Option SelError := c2Base.1.callAt c2Base.2 Kind.element "div"

/-- Facade-level `stringify()` called twice in a row after building one
compound: the value component of the second call. -/
def c8Twice : Option String := ((c2Base.1.stringify).2.stringify).1

/-- Scenario of claim C7: `id("main")` then `class("container")` then
`class("editable")` on the same compound. -/
def c7Built : Builder × Nat := Builder.init.setNewSelector "main" Kind.id

/-- The chained class appends of the C7 scenario. -/
def c7Chained : Builder × Option SelError :=
  Builder.chain c7Built.1 c7Built.2 [(Kind.«class», "container"), (Kind.«class», "editable")]

/-- Selector A of the combine scenario: `element("div").id("main")`
`.class("container").class("draggable")` — creation of the compound. -/
def c1A : Builder × Nat := Builder.init.setNewSelector "div" Kind.element

/-- Chained appends completing selector A. -/
def c1AChain : Builder × Option SelError :=
  Builder.chain c1A.1 c1A.2
    [(Kind.id, "main"), (Kind.«class», "container"), (Kind.«class», "draggable")]

/-- Selector B: `element("table").id("data")` — creation of the compound. -/
def c1B : Builder × Nat := c1AChain.1.setNewSelector "table" Kind.element

/-- Chained append completing selector B. -/
def c1BChain : Builder × Option SelError := Builder.chain c1B.1 c1B.2 [(Kind.id, "data")]

/-- Selector C: `element("tr").pseudoClass("nth-of-type(even)")` — creation
of the compound. -/
def c1C : Builder × Nat := c1BChain.1.setNewSelector "tr" Kind.element

/-- Chained append completing selector C. -/
def c1CChain : Builder × Option SelError :=
  Builder.chain c1C.1 c1C.2 [(Kind.pseudoClass, "nth-of-type(even)")]

/-- Selector D: `element("td").pseudoClass("nth-of-type(even)")` — creation
of the compound. -/
def c1D : Builder × Nat := c1CChain.1.setNewSelector "td" Kind.element

/-- Chained append completing selector D. -/
def c1DChain : Builder × Option SelError :=
  Builder.chain c1D.1 c1D.2 [(Kind.pseudoClass, "nth-of-type(even)")]

/-- The three `combine` calls of the scenario, in JS evaluation order:
`combine(C, descendant, D)`, then `combine(B, subsequent-sibling, that)`,
then `combine(A, next-sibling, that)`.  Each returns the facade. -/
def c1Combined : Builder :=
  let b1 := (c1DChain.1.combine (JsRef.sel c1C.2) " " (JsRef.sel c1D.2)).1
  let b2 := (b1.combine (JsRef.sel c1B.2) "~" JsRef.facade).1
  (b2.combine (JsRef.sel c1A.2) "+" JsRef.facade).1

/-- The value returned by the final `stringify()` of the combine scenario. -/
def c1Result : Option String := (c1Combined.stringify).1

/-!
Shared lemmas about the embedded operations.
-/

/-- Dispatch lemma: every fragment method is `callMeth` with the prefix and
suffix of its kind. -/
theorem call_eq_callMeth (s : Selector) (k : Kind) (v : String) :
    s.call k v = s.callMeth v k (addBeforeOf k) (addAfterOf k) := by
  cases k <;> rfl

/-- The duplicate test after the increment fires exactly for a singleton kind
whose counter was already at least one. -/
theorem overOne_incr (u : UnicCall) (k : Kind) :
    (u.incr k).overOne k = (singletonKind k && decide (1 ≤ u.counterOf k)) := by
  cases k <;>
    simp [UnicCall.incr, UnicCall.overOne, UnicCall.counterOf, singletonKind,
      decide_eq_decide] <;>
    omega

/-- Closed form of `callMeth`: the duplicate branch, the ordered success
branch, and the order-violation branch, each with the exact state it
produces. -/
theorem callMeth_eq (s : Selector) (v : String) (k : Kind) (before after : String) :
    s.callMeth v k before after =
      if (s.unicCall.incr k).overOne k then
        ({ s with unicCall := s.unicCall.incr k }, some .duplicate)
      else if indexOfRule s.last ≤ indexOfRule (some k) then
        ({ s with
            unicCall := s.unicCall.incr k
            last := some k
            str := s.str ++ before ++ v ++ after }, none)
      else
        ({ s with
            unicCall := s.unicCall.incr k
            last := some k }, some .orderViolation) := by
  simp only [Selector.callMeth, Selector.checkCall, Selector.checkOrder]
  by_cases h1 : (s.unicCall.incr k).overOne k
  · simp [h1]
  · simp only [h1, if_false, Bool.false_eq_true, if_neg, ite_false]
    by_cases h2 : indexOfRule s.last ≤ indexOfRule (some k)
    · simp [h1, h2]
    · simp [h1, h2]

/-- Whatever the outcome, a fragment call leaves the counters incremented for
the attempted kind (the increment happens before either throw). -/
theorem call_fst_unicCall (s : Selector) (k : Kind) (v : String) :
    ((s.call k v).1).unicCall = s.unicCall.incr k := by
  rw [call_eq_callMeth, callMeth_eq]
  split
  · rfl
  · split <;> rfl

/-- A successful fragment call appends prefix, text and suffix to the string,
sets `last` to the attempted kind and increments its counter. -/
theorem call_success_eq {s s' : Selector} {k : Kind} {v : String}
    (h : s.call k v = (s', none)) :
    s' = { s with
            unicCall := s.unicCall.incr k
            last := some k
            str := s.str ++ addBeforeOf k ++ v ++ addAfterOf k } := by
  rw [call_eq_callMeth, callMeth_eq] at h
  split at h
  · simp at h
  · split at h
    · injection h with h1 h2
      exact h1.symm
    · simp at h

/-- A call that throws the duplicate error has already incremented the
counter of the attempted kind; string and `last` are untouched. -/
theorem call_dup_eq {s s' : Selector} {k : Kind} {v : String}
    (h : s.call k v = (s', some .duplicate)) :
    s' = { s with unicCall := s.unicCall.incr k } := by
  rw [call_eq_callMeth, callMeth_eq] at h
  split at h
  · injection h with h1 h2
    exact h1.symm
  · split at h <;> simp at h

/-- A call that throws the order-violation error has already incremented the
counter and set `last` to the attempted kind; the string is untouched. -/
theorem call_ord_eq {s s' : Selector} {k : Kind} {v : String}
    (h : s.call k v = (s', some .orderViolation)) :
    s' = { s with
            unicCall := s.unicCall.incr k
            last := some k } := by
  rw [call_eq_callMeth, callMeth_eq] at h
  split at h
  · simp at h
  · split at h
    · simp at h
    · injection h with h1 h2
      exact h1.symm

/-- The outcome of a fragment call, determined by the duplicate test first
and the order test second. -/
theorem call_snd_eq (s : Selector) (k : Kind) (v : String) :
    (s.call k v).2 =
      if singletonKind k && decide (1 ≤ s.unicCall.counterOf k) then some .duplicate
      else if indexOfRule s.last ≤ indexOfRule (some k) then none
      else some .orderViolation := by
  rw [call_eq_callMeth, callMeth_eq, overOne_incr]
  split
  · rfl
  · split <;> rfl

/-- Incrementing changes exactly the counter of the incremented singleton
kind. -/
theorem counterOf_incr (u : UnicCall) (k k' : Kind) (hk' : singletonKind k' = true) :
    (u.incr k).counterOf k' = u.counterOf k' + (if k = k' then 1 else 0) := by
  cases k <;> cases k' <;> simp_all [UnicCall.incr, UnicCall.counterOf, singletonKind]

/-- All counters of a fresh selector are zero. -/
theorem counterOf_new (k : Kind) : Selector.new.unicCall.counterOf k = 0 := by
  cases k <;> rfl

/-- Along a successful chain of appends, the counter of a singleton kind
grows by exactly the number of fragments of that kind. -/
theorem appendAll_counterOf : ∀ (frags : List (Kind × String)) (s t : Selector) (k : Kind),
    s.appendAll frags = some t → singletonKind k = true →
    t.unicCall.counterOf k = s.unicCall.counterOf k + (frags.map Prod.fst).count k := by
  intro frags
  induction frags with
  | nil =>
    intro s t k h hk
    simp only [Selector.appendAll, Option.some.injEq] at h
    subst h
    simp
  | cons p rest ih =>
    intro s t k h hk
    obtain ⟨k1, v1⟩ := p
    simp only [Selector.appendAll] at h
    rcases hc : s.call k1 v1 with ⟨s1, e⟩
    rw [hc] at h
    cases e with
    | none =>
      have hrec := ih s1 t k h hk
      have hs1 := call_success_eq hc
      subst hs1
      simp only [counterOf_incr _ _ _ hk] at hrec
      simp only [List.map_cons, List.count_cons]
      rw [hrec]
      by_cases hk1 : k1 = k <;> simp [hk1]
      omega
    | some e => simp at h

/-- Appending a singleton kind whose counter is already positive throws the
duplicate error. -/
theorem dup_of_counter {s : Selector} {k : Kind} (v : String)
    (hk : singletonKind k = true) (hc : 1 ≤ s.unicCall.counterOf k) :
    (s.call k v).2 = some SelError.duplicate := by
  rw [call_snd_eq]
  simp [hk, hc]

/-- The tail of an ordered kind sequence is ordered. -/
theorem ordered_tail {a : Kind} {l : List Kind} (h : ordered (a :: l) = true) :
    ordered l = true := by
  cases l with
  | nil => rfl
  | cons b rest =>
    simp only [ordered, Bool.and_eq_true] at h
    exact h.2

/-- The first two elements of an ordered kind sequence are in index order. -/
theorem ordered_head {a b : Kind} {l : List Kind}
    (h : ordered (a :: b :: l) = true) :
    indexOfRule (some a) ≤ indexOfRule (some b) := by
  simp only [ordered, Bool.and_eq_true, decide_eq_true_eq] at h
  exact h.1

/-- `indexOf(null) = -1` is below the index of every kind. -/
theorem indexOfRule_none_le (x : Option Kind) : indexOfRule none ≤ indexOfRule x := by
  cases x with
  | none => exact le_refl _
  | some k => exact le_trans (by decide) (Int.natCast_nonneg _)

/-!
Claim theorems.
-/

/-- C1, counterexample: the combine scenario of the claim — A, B, C, D built
through the facade, then `combine(C, descendant, D)`,
`combine(B, subsequent-sibling, that)`, `combine(A, next-sibling, that)` —
does NOT stringify to the claimed output with a single literal space around
the descendant combinator: the code renders the stored one-space symbol
wrapped in spaces, i.e. three spaces. -/
theorem C1_counterexample :
    c1Result ≠
      some "div#main.container.draggable + table#data ~ tr:nth-of-type(even) td:nth-of-type(even)" := by
  decide

/-- C1, amended: the combine scenario stringifies to the output with the
descendant combinator rendered as three spaces (space, the stored one-space
symbol, space) and each other combinator as space-symbol-space, exactly as
the example in the source doc comment (line 114) shows. -/
theorem C1_theorem :
    c1Result =
      some "div#main.container.draggable + table#data ~ tr:nth-of-type(even)   td:nth-of-type(even)" := by
  decide

/-- C2, counterexample: stringify is not idempotent and not side-effect-free.
On the compound built by `id("main")`, the first `stringify()` returns
`#main` and the second returns the empty string, and the first call has
changed the facade state. -/
theorem C2_counterexample :
    c2Second.1 ≠ c2First.1 ∧ c2First.2 ≠ c2Base.1 := by decide

/-- C2, amended: `Selector.stringify` returns the accumulated string of the
compound, but as a side effect it resets that string and clears the facade
list of selectors, so an immediately repeated call on the same compound
returns the empty string instead of the same output. -/
theorem C2_theorem (b : Builder) (i : Nat) (s : Selector) (h : b.store[i]? = some s) :
    (b.selStringifyAt i).1 = s.str ∧
    ((b.selStringifyAt i).2.selStringifyAt i).1 = "" ∧
    ((b.selStringifyAt i).2).selectors = [] := by
  have hi : i < b.store.length := (List.getElem?_eq_some.mp h).1
  have hset : (b.store.set i { s with str := "", last := none })[i]? =
      some { s with str := "", last := none } :=
    List.getElem?_set_eq_of_lt _ (by simpa using hi)
  simp [Builder.selStringifyAt, h, hset]

/-- C2, witness: the amended theorem applied to the compound built by
`id("main")`. -/
theorem C2_witness :
    c2Base.1.store[c2Base.2]? = some mainIdSel ∧
    c2First.1 = mainIdSel.str ∧ c2Second.1 = "" :=
  ⟨by decide,
    (C2_theorem c2Base.1 c2Base.2 mainIdSel (by decide)).1,
    (C2_theorem c2Base.1 c2Base.2 mainIdSel (by decide)).2.1⟩

/-- C3, counterexample: a failed append does change the state of the
previously built compound.  After `id("main")`, the failing append
`element("div")` throws the order-violation error, yet the stored selector
object differs from what it was before the call (its `last` marker and
`element` counter were mutated before the throw). -/
theorem C3_counterexample :
    c3Failed.2 = some SelError.orderViolation ∧
    c3Failed.1.store[c2Base.2]? ≠ c2Base.1.store[c2Base.2]? := by decide

/-- C3, amended: a failed append appends nothing to the accumulated string,
but it does increment the occurrence counter of the attempted kind, and an
order-violation failure additionally sets the last-appended-kind marker to
the attempted kind (a duplicate failure leaves the marker unchanged). -/
theorem C3_theorem (s sf : Selector) (k : Kind) (v : String) (e : SelError)
    (h : s.call k v = (sf, some e)) :
    sf.str = s.str ∧
    sf.unicCall = s.unicCall.incr k ∧
    sf.last = (if e = SelError.duplicate then s.last else some k) := by
  cases e with
  | duplicate =>
    rw [call_dup_eq h]
    exact ⟨rfl, rfl, by simp⟩
  | orderViolation =>
    rw [call_ord_eq h]
    exact ⟨rfl, rfl, by simp⟩

/-- C3, witness: the amended theorem applied to the failing append
`element("div")` on the compound built by `id("main")`. -/
theorem C3_witness :
    mainIdSel.call Kind.element "div" = (mainIdSelAfterFail, some SelError.orderViolation) ∧
    mainIdSelAfterFail.str = mainIdSel.str :=
  ⟨by decide,
    (C3_theorem mainIdSel mainIdSelAfterFail Kind.element "div"
        SelError.orderViolation (by decide)).1⟩

/-- C4: appending a second fragment of a singleton kind (element, id or
pseudoElement) to a compound that already contains a fragment of that kind
always fails with the duplicate-fragment error, regardless of what other
fragments the compound contains (the duplicate check runs before the order
check, so the duplicate error wins even when the order is also violated). -/
theorem C4_theorem (frags : List (Kind × String)) (s : Selector) (k : Kind) (v : String)
    (hbuilt : Selector.new.appendAll frags = some s) (hk : singletonKind k = true)
    (hmem : k ∈ frags.map Prod.fst) :
    (s.call k v).2 = some SelError.duplicate := by
  apply dup_of_counter v hk
  have hcnt := appendAll_counterOf frags Selector.new s k hbuilt hk
  rw [counterOf_new] at hcnt
  have hpos : 0 < (frags.map Prod.fst).count k := List.count_pos_iff.mpr hmem
  omega

/-- C4, witness: the theorem applied to the compound built by `id("main")`
and a second `id` append. -/
theorem C4_witness :
    Selector.new.appendAll [(Kind.id, "main")] = some mainIdSel ∧
    (mainIdSel.call Kind.id "other").2 = some SelError.duplicate :=
  ⟨by decide,
    C4_theorem [(Kind.id, "main")] mainIdSel Kind.id "other" (by decide) (by decide)
      (by decide)⟩

/-- C5, counterexample: appending a fragment with equal canonical index does
not always succeed.  On the compound built by `id("main")`, whose last
appended kind is `id`, appending `id` again — equal index, so the claim says
it succeeds — throws (the duplicate-fragment error). -/
theorem C5_counterexample :
    Selector.new.appendAll [(Kind.id, "main")] = some mainIdSel ∧
    indexOfRule mainIdSel.last ≤ indexOfRule (some Kind.id) ∧
    (mainIdSel.call Kind.id "x").2 ≠ none := by decide

/-- C5, amended: on a compound built by successful appends, an append of a
singleton kind already present fails with the duplicate error (whatever the
order relation); otherwise an append with canonical index strictly below the
last-appended kind fails with the order-violation error, and one with equal
or greater index succeeds. -/
theorem C5_theorem (frags : List (Kind × String)) (s : Selector) (k : Kind) (v : String)
    (hbuilt : Selector.new.appendAll frags = some s) :
    (singletonKind k = true ∧ k ∈ frags.map Prod.fst →
      (s.call k v).2 = some SelError.duplicate) ∧
    (¬ (singletonKind k = true ∧ k ∈ frags.map Prod.fst) →
      indexOfRule (some k) < indexOfRule s.last →
      (s.call k v).2 = some SelError.orderViolation) ∧
    (¬ (singletonKind k = true ∧ k ∈ frags.map Prod.fst) →
      indexOfRule s.last ≤ indexOfRule (some k) →
      (s.call k v).2 = none) := by
  have hcnt : ∀ hk : singletonKind k = true,
      s.unicCall.counterOf k = (frags.map Prod.fst).count k := by
    intro hk
    have := appendAll_counterOf frags Selector.new s k hbuilt hk
    rwa [counterOf_new, Nat.zero_add] at this
  have hcond : ¬ (singletonKind k = true ∧ k ∈ frags.map Prod.fst) →
      (singletonKind k && decide (1 ≤ s.unicCall.counterOf k)) = false := by
    intro hnd
    by_cases hk : singletonKind k = true
    · have hnotmem : k ∉ frags.map Prod.fst := fun hm => hnd ⟨hk, hm⟩
      have hz : (frags.map Prod.fst).count k = 0 := List.count_eq_zero.mpr hnotmem
      simp [hk, hcnt hk, hz]
    · simp [Bool.eq_false_iff.mpr hk]
  refine ⟨?_, ?_, ?_⟩
  · rintro ⟨hk, hmem⟩
    refine dup_of_counter v hk ?_
    have hpos := List.count_pos_iff.mpr hmem
    have := hcnt hk
    omega
  · intro hnd hlt
    rw [call_snd_eq, hcond hnd]
    simp only [Bool.false_eq_true, if_false]
    rw [if_neg (by omega)]
  · intro hnd hle
    rw [call_snd_eq, hcond hnd]
    simp only [Bool.false_eq_true, if_false]
    rw [if_pos hle]

/-- C5, witness: the amended theorem applied to the compound built by
`id("main")` and a duplicate `id` append. -/
theorem C5_witness :
    Selector.new.appendAll [(Kind.id, "main")] = some mainIdSel ∧
    (mainIdSel.call Kind.id "x").2 = some SelError.duplicate :=
  ⟨by decide,
    (C5_theorem [(Kind.id, "main")] mainIdSel Kind.id "x" (by decide)).1
      ⟨by decide, by decide⟩⟩

/-- Every valid fragment sequence is accepted by the chain of appends, and
the accumulated string is the concatenation of the rendered fragments.  The
hypotheses generalise over the starting selector: the kinds to come are
canonically ordered, each singleton kind still has room under its cardinality
bound, and the first kind to come is not below the last appended one. -/
theorem appendAll_of_valid : ∀ (frags : List (Kind × String)) (s : Selector),
    ordered (frags.map Prod.fst) = true →
    (∀ k, singletonKind k = true →
      s.unicCall.counterOf k + (frags.map Prod.fst).count k ≤ 1) →
    (∀ k0 ks, frags.map Prod.fst = k0 :: ks →
      indexOfRule s.last ≤ indexOfRule (some k0)) →
    ∃ t, s.appendAll frags = some t ∧ t.str = s.str ++ renderFrags frags := by
  intro frags
  induction frags with
  | nil =>
    intro s _ _ _
    exact ⟨s, rfl, by simp [renderFrags]⟩
  | cons p rest ih =>
    intro s hord hcard hhead
    obtain ⟨k1, v1⟩ := p
    have hsnd : (s.call k1 v1).2 = none := by
      rw [call_snd_eq]
      have hnodup : (singletonKind k1 && decide (1 ≤ s.unicCall.counterOf k1)) = false := by
        by_cases hk1 : singletonKind k1 = true
        · have hc := hcard k1 hk1
          have hone : 1 ≤ (((k1, v1) :: rest).map Prod.fst).count k1 := by
            simp [List.count_cons]
          have : s.unicCall.counterOf k1 = 0 := by omega
          simp [hk1, this]
        · simp [Bool.eq_false_iff.mpr hk1]
      rw [hnodup]
      simp only [Bool.false_eq_true, if_false]
      rw [if_pos (hhead k1 (rest.map Prod.fst) (by simp))]
    rcases hc : s.call k1 v1 with ⟨s1, e⟩
    have he : e = none := by rw [hc] at hsnd; exact hsnd
    subst he
    have hs1 := call_success_eq hc
    have hord' : ordered (rest.map Prod.fst) = true := by
      have := hord
      simp only [List.map_cons] at this
      exact ordered_tail this
    have hcard' : ∀ k, singletonKind k = true →
        s1.unicCall.counterOf k + (rest.map Prod.fst).count k ≤ 1 := by
      intro k hk
      have hc0 := hcard k hk
      rw [hs1]
      simp only [counterOf_incr _ _ _ hk]
      simp only [List.map_cons, List.count_cons] at hc0
      by_cases hk1 : k1 = k <;> simp [hk1] at hc0 ⊢ <;> omega
    have hhead' : ∀ k0 ks, rest.map Prod.fst = k0 :: ks →
        indexOfRule s1.last ≤ indexOfRule (some k0) := by
      intro k0 ks hks
      rw [hs1]
      have : ordered (k1 :: k0 :: ks) = true := by
        have := hord
        simp only [List.map_cons, hks] at this
        exact this
      exact ordered_head this
    obtain ⟨t, ht, hstr⟩ := ih s1 hord' hcard' hhead'
    refine ⟨t, ?_, ?_⟩
    · simp only [Selector.appendAll, hc]
      exact ht
    · rw [hstr, hs1]
      simp only [renderFrags]
      rw [← String.append_assoc, ← String.append_assoc, ← String.append_assoc]

/-- Setting a list position to the value it already holds is the identity. -/
theorem set_self_of_getElem? {α : Type} : ∀ (l : List α) (i : Nat) (a : α),
    l[i]? = some a → l.set i a = l
  | [], i, a, h => by simp at h
  | x :: xs, 0, a, h => by
    simp only [List.getElem?_cons_zero, Option.some.injEq] at h
    simp [h]
  | x :: xs, i + 1, a, h => by
    simp only [List.getElem?_cons_succ] at h
    simp [set_self_of_getElem? xs i a h]

/-- A successful chain of appends on the object behind reference `i` is
exactly the in-place update of that object by `appendAll`. -/
theorem chain_of_appendAll : ∀ (frags : List (Kind × String)) (b : Builder) (i : Nat)
    (s t : Selector), b.store[i]? = some s → s.appendAll frags = some t →
    Builder.chain b i frags = ({ b with store := b.store.set i t }, none) := by
  intro frags
  induction frags with
  | nil =>
    intro b i s t hs h
    simp only [Selector.appendAll, Option.some.injEq] at h
    subst h
    simp [Builder.chain, set_self_of_getElem? _ _ _ hs]
  | cons p rest ih =>
    intro b i s t hs h
    obtain ⟨k, v⟩ := p
    simp only [Selector.appendAll] at h
    rcases hc : s.call k v with ⟨s1, e⟩
    rw [hc] at h
    cases e with
    | some e => simp at h
    | none =>
      have hstep : b.callAt i k v = ({ b with store := b.store.set i s1 }, none) := by
        simp [Builder.callAt, hs, hc]
      simp only [Builder.chain, hstep]
      have hi : i < b.store.length := (List.getElem?_eq_some.mp hs).1
      have hs1 : (b.store.set i s1)[i]? = some s1 :=
        List.getElem?_set_eq_of_lt s1 (by simpa using hi)
      have hrec := ih { b with store := b.store.set i s1 } i s1 t hs1 h
      rw [hrec]
      simp [List.set_set]

/-- C6: for every fragment sequence that respects the canonical order and the
cardinality rules, building the compound through the facade succeeds (no
error at any append) and its stringify result is the concatenation, in append
order and with no separators, of prefix, text and suffix of each fragment. -/
theorem C6_theorem (b0 : Builder) (k1 : Kind) (v1 : String) (rest : List (Kind × String))
    (hvalid : validSeq ((k1, v1) :: rest) = true) :
    (Builder.chain (b0.setNewSelector v1 k1).1 (b0.setNewSelector v1 k1).2 rest).2 = none ∧
    (((Builder.chain (b0.setNewSelector v1 k1).1 (b0.setNewSelector v1 k1).2
          rest).1).selStringifyAt (b0.setNewSelector v1 k1).2).1 =
      renderFrags ((k1, v1) :: rest) := by
  simp only [validSeq, Bool.and_eq_true, decide_eq_true_eq] at hvalid
  obtain ⟨⟨⟨hord, hel⟩, hid⟩, hpe⟩ := hvalid
  obtain ⟨t, happ, hstr⟩ :=
    appendAll_of_valid ((k1, v1) :: rest) Selector.new hord
      (by
        intro k hk
        rw [counterOf_new]
        cases k <;> simp_all [singletonKind])
      (by
        intro k0 ks _
        exact indexOfRule_none_le _)
  simp only [Selector.appendAll] at happ
  rcases hc : Selector.new.call k1 v1 with ⟨n1, e⟩
  rw [hc] at happ
  cases e with
  | some e => simp at happ
  | none =>
    have hsel : b0.setNewSelector v1 k1 =
        (⟨b0.store ++ [n1], b0.selectors ++ [b0.store.length], b0.splitters⟩,
          b0.store.length) := by
      simp [Builder.setNewSelector, hc]
    rw [hsel]
    have hget : (b0.store ++ [n1])[b0.store.length]? = some n1 :=
      List.getElem?_concat_length b0.store n1
    have hchain := chain_of_appendAll rest
        ⟨b0.store ++ [n1], b0.selectors ++ [b0.store.length], b0.splitters⟩
        b0.store.length n1 t hget happ
    rw [hchain]
    refine ⟨rfl, ?_⟩
    have hget2 : ((b0.store ++ [n1]).set b0.store.length t)[b0.store.length]? = some t :=
      List.getElem?_set_eq_of_lt t (by simp)
    simp only [Builder.selStringifyAt, hget2]
    rw [hstr]
    simp [Selector.new]

/-- C6, witness: the theorem applied to the valid sequence `id("main")`
then `class("container")` on a fresh facade. -/
theorem C6_witness :
    validSeq [(Kind.id, "main"), (Kind.«class», "container")] = true ∧
    (Builder.chain (Builder.init.setNewSelector "main" Kind.id).1
        (Builder.init.setNewSelector "main" Kind.id).2 [(Kind.«class», "container")]).2 = none ∧
    (((Builder.chain (Builder.init.setNewSelector "main" Kind.id).1
          (Builder.init.setNewSelector "main" Kind.id).2
          [(Kind.«class», "container")]).1).selStringifyAt
        (Builder.init.setNewSelector "main" Kind.id).2).1 =
      renderFrags [(Kind.id, "main"), (Kind.«class», "container")] :=
  ⟨by decide,
    (C6_theorem Builder.init Kind.id "main" [(Kind.«class», "container")] (by decide)).1,
    (C6_theorem Builder.init Kind.id "main" [(Kind.«class», "container")] (by decide)).2⟩

/-- C7: building `id("main")` then `class("container")` then
`class("editable")` through the facade raises no error, and stringify of the
compound returns exactly the hash-main-dot-container-dot-editable string. -/
theorem C7_theorem :
    c7Chained.2 = none ∧
    (c7Chained.1.selStringifyAt c7Built.2).1 = "#main.container.editable" := by
  decide

/-- C8, counterexample: stringify can fail on well-typed inputs.  After
building one compound, the first facade-level `stringify()` succeeds and
clears the selectors list, so the immediately repeated call runs
`[].reduce((a, b) => a + b)` and throws a TypeError, modelled as `none`. -/
theorem C8_counterexample : c8Twice = none := by decide

/-- C8, amended: `combine` never fails (it has no throwing path and leaves
the selectors untouched), and facade-level `stringify` succeeds exactly when
the selectors list is non-empty; with an empty list — as after any preceding
`stringify` — it throws the TypeError of reducing an empty array. -/
theorem C8_theorem {α β : Type} (b : Builder) (a : α) (op : String) (c : β) :
    ((b.combine a op c).1).selectors = b.selectors ∧
    (b.selectors.isEmpty = false → ((b.stringify).1).isSome = true) ∧
    (b.selectors.isEmpty = true → (b.stringify).1 = none) := by
  refine ⟨rfl, ?_, ?_⟩
  · intro h
    rcases hm : Builder.mapParts b.splitters b.selectors 0 b.store with ⟨parts, store2⟩
    simp [Builder.stringify, h, hm]
  · intro h
    simp [Builder.stringify, h]

/-- C8, witness: the amended theorem applied to the facade state holding the
compound built by `id("main")`. -/
theorem C8_witness :
    c2Base.1.selectors.isEmpty = false ∧ ((c2Base.1.stringify).1).isSome = true :=
  ⟨by decide, (C8_theorem c2Base.1 JsRef.facade "+" JsRef.facade).2.1 (by decide)⟩

/-- C9: for all arguments — the left operand, the combinator and the ignored
third argument being arbitrary — `combine` returns the facade itself,
prepends exactly the second argument to the shared splitters list, and
leaves the selectors list and every selector object untouched; its result
state is independent of both operands, so the serialized operand order can
only come from the creation order recorded in the selectors list. -/
theorem C9_theorem {α β γ δ : Type} (bld : Builder) (a : α) (op : String) (c : β)
    (a2 : γ) (c2 : δ) :
    (bld.combine a op c).2 = JsRef.facade ∧
    ((bld.combine a op c).1).splitters = op :: bld.splitters ∧
    ((bld.combine a op c).1).selectors = bld.selectors ∧
    ((bld.combine a op c).1).store = bld.store ∧
    bld.combine a2 op c2 = bld.combine a op c :=
  ⟨rfl, rfl, rfl, rfl, rfl⟩

/-- C10: `Selector.stringify` on the object behind reference `i` returns
that object's accumulated string and produces the state where the object has
its string and last-kind marker reset, the facade selectors list is cleared
(so any compound not yet stringified is discarded: a subsequent facade-level
stringify throws), and the splitters list is unchanged. -/
theorem C10_theorem (b : Builder) (i : Nat) (s : Selector) (h : b.store[i]? = some s) :
    b.selStringifyAt i =
      (s.str,
        { store := b.store.set i { s with str := "", last := none }
          selectors := []
          splitters := b.splitters }) ∧
    (((b.selStringifyAt i).2).stringify).1 = none := by
  constructor
  · simp [Builder.selStringifyAt, h]
  · simp [Builder.selStringifyAt, h, Builder.stringify]

/-- C10, witness: the theorem applied to the facade state holding the
compound built by `id("main")`. -/
theorem C10_witness :
    c2Base.1.store[c2Base.2]? = some mainIdSel ∧
    c2Base.1.selStringifyAt c2Base.2 =
      (mainIdSel.str,
        { store := c2Base.1.store.set c2Base.2 { mainIdSel with str := "", last := none }
          selectors := []
          splitters := c2Base.1.splitters }) :=
  ⟨by decide, (C10_theorem c2Base.1 c2Base.2 mainIdSel (by decide)).1⟩
